import Mathlib

/-!
Verification of the Argo log-viewer core against its specification.

The definitions below are a shallow embedding of the Python sources:
  - app/kubernetes/operations.py   (sanitizers, pod-list parsing, metrics classification)
  - app/ssh/connection_manager.py  (prompt detection, command execution, streaming)
  - app/ssh/argo_worker.py         (dispatcher pod-name parsing, metrics polling loop)

Python strings are modelled as Lean `String`/`List Char`; stateful loops over
real time and a socket are modelled as step functions over explicit event
traces; raised exceptions are modelled with `Except` or dedicated result
constructors.  Each definition carries a comment naming the source function
it embeds.
-/

namespace ArgoLog

/-- Whitespace recognized by Python `str.strip` / `str.split()` for ASCII text
(space, tab, newline, carriage return, vertical tab, form feed). -/
def isPySpace (c : Char) : Bool :=
  c == ' ' || c == '\t' || c == '\n' || c == '\r' || c == '\x0b' || c == '\x0c'

/-- ASCII alphanumeric characters, i.e. exactly the set [A-Za-z0-9]. -/
def asciiAlnum (c : Char) : Bool :=
  (48 ≤ c.toNat && c.toNat ≤ 57) || (65 ≤ c.toNat && c.toNat ≤ 90) ||
    (97 ≤ c.toNat && c.toNat ≤ 122)

/-- Non-ASCII Latin-1 characters for which Python `str.isalnum()` returns True:
the letters U+00C0–U+00FF except multiplication/division signs, plus the
ordinal indicators, superscripts, vulgar fractions and the micro sign. -/
def latin1Alnum (c : Char) : Bool :=
  c.toNat == 0xAA || c.toNat == 0xB2 || c.toNat == 0xB3 || c.toNat == 0xB5 ||
  c.toNat == 0xB9 || c.toNat == 0xBA || c.toNat == 0xBC || c.toNat == 0xBD ||
  c.toNat == 0xBE ||
  (0xC0 ≤ c.toNat && c.toNat ≤ 0xFF && !(c.toNat == 0xD7) && !(c.toNat == 0xF7))

/-- Model of Python `str.isalnum()` on a single character, faithful for all
code points below 0x100 (ASCII plus the Latin-1 supplement).  Python's
`isalnum` is Unicode-aware; in particular it accepts letters such as 'é'
that are outside [A-Za-z0-9].  Code points ≥ 0x100 are outside the modelled
domain and all inputs used in the theorems below stay inside it. -/
def pyIsAlnum (c : Char) : Bool :=
  asciiAlnum c || latin1Alnum c

/-- Character is ASCII (code point below 128). -/
def isAscii (c : Char) : Bool :=
  c.toNat < 128

/-- Model of Python `str.strip()` on a character list: drop leading and
trailing whitespace. -/
def pyStripL (l : List Char) : List Char :=
  ((l.dropWhile isPySpace).reverse.dropWhile isPySpace).reverse

/-- Boolean infix test on character lists: the needle occurs contiguously in
the haystack. -/
def isInfixOfL : List Char → List Char → Bool
  | needle, [] => needle.isEmpty
  | needle, c :: rest => needle.isPrefixOf (c :: rest) || isInfixOfL needle rest

/-- Model of Python `needle in hay` substring test. -/
def strContains (hay needle : String) : Bool :=
  isInfixOfL needle.toList hay.toList

/-- Model of Python `s.startswith(pre)`. -/
def pyStartsWith (s pre : String) : Bool :=
  pre.toList.isPrefixOf s.toList

/-- Model of Python `s.endswith(suf)`. -/
def pyEndsWith (s suf : String) : Bool :=
  suf.toList.isSuffixOf s.toList

/-- The character class kept by `_sanitize_grep_pattern`
(`c.isalnum() or c in '-_.'` in operations.py line 378). -/
def isGrepAllowed (c : Char) : Bool :=
  pyIsAlnum c || c == '-' || c == '_' || c == '.'

/-- The character class kept by `_sanitize_pod_name`
(`c.isalnum() or c in '-.'` in operations.py line 420). -/
def isPodAllowed (c : Char) : Bool :=
  pyIsAlnum c || c == '-' || c == '.'

/-- The spec's identifier character set [A-Za-z0-9_.-] (ASCII only), in the
same disjunct order as `isGrepAllowed`. -/
def inGrepCharset (c : Char) : Bool :=
  asciiAlnum c || c == '-' || c == '_' || c == '.'

/-- The spec's pod-name character set [A-Za-z0-9.-] (ASCII only). -/
def inPodCharset (c : Char) : Bool :=
  asciiAlnum c || c == '-' || c == '.'

/-- Embeds `KubernetesOperations._sanitize_grep_pattern` (operations.py
350-389): strip whitespace, reject if empty, keep only characters with
`c.isalnum() or c in '-_.'`, reject if nothing is left, and prepend 'x'
when the result starts with '-'.  A raised `ValueError` is `Except.error`
with the source's message. -/
def _sanitize_grep_pattern (s : String) : Except String String :=
  if pyStripL s.toList = [] then Except.error "Search pattern cannot be empty"
  else
    match (pyStripL s.toList).filter isGrepAllowed with
    | [] => Except.error "Invalid search pattern - contains no valid characters"
    | c :: cs =>
      if c == '-' then Except.ok (String.mk ('x' :: c :: cs))
      else Except.ok (String.mk (c :: cs))

/-- Embeds `KubernetesOperations._sanitize_pod_name` (operations.py 391-440):
strip whitespace, reject if empty, keep only `c.isalnum() or c in '-.'`,
reject if nothing is left, require the first and last character to satisfy
`isalnum` and the length to be at most 253. -/
def _sanitize_pod_name (s : String) : Except String String :=
  if pyStripL s.toList = [] then Except.error "Pod name cannot be empty"
  else
    match (pyStripL s.toList).filter isPodAllowed with
    | [] => Except.error "Invalid pod name - contains no valid characters"
    | c :: cs =>
      if !pyIsAlnum c then
        Except.error "Invalid pod name - must start with alphanumeric character"
      else if !pyIsAlnum ((c :: cs).getLast (List.cons_ne_nil c cs)) then
        Except.error "Invalid pod name - must end with alphanumeric character"
      else if 253 < (c :: cs).length then
        Except.error "Invalid pod name - exceeds maximum length of 253 characters"
      else Except.ok (String.mk (c :: cs))

/-- True when the modelled call raised (an `Except.error`). -/
def isError (r : Except String String) : Bool :=
  match r with
  | Except.error _ => true
  | Except.ok _ => false

example : _sanitize_grep_pattern "  -abc!  " = Except.ok "x-abc" := rfl
example : _sanitize_pod_name "My_Pod!!" = Except.ok "MyPod" := rfl
example : _sanitize_pod_name "-bad-" =
    Except.error "Invalid pod name - must start with alphanumeric character" := rfl
example : _sanitize_grep_pattern "é" = Except.ok "é" := rfl
example : _sanitize_pod_name "µ" = Except.ok "µ" := rfl

/-- Model of Python `str.splitlines()` for '\n', '\r\n' and '\r' line
boundaries: lines are returned without their terminators and a trailing
terminator does not produce an extra empty line. -/
def pySplitlines : List Char → List (List Char)
  | [] => []
  | '\r' :: '\n' :: rest => [] :: pySplitlines rest
  | '\n' :: rest => [] :: pySplitlines rest
  | '\r' :: rest => [] :: pySplitlines rest
  | c :: rest =>
    match pySplitlines rest with
    | [] => [[c]]
    | l :: ls => (c :: l) :: ls

example : pySplitlines "a\nb".toList = [['a'], ['b']] := rfl
example : pySplitlines "a\n\n".toList = [['a'], []] := rfl
example : pySplitlines "".toList = [] := rfl

/-- Embeds the expression `buffer.splitlines()[-1] if buffer.splitlines()
else ""` from `_wait_for_prompt` (connection_manager.py line 337): the last
line of the buffer, which is the empty string when the buffer is empty or
ends with a blank line. -/
def lastLine (buffer : String) : String :=
  match (pySplitlines buffer.toList).getLast? with
  | some l => String.mk l
  | none => ""

/-- Drop trailing Python whitespace from a character list. -/
def dropTrailingPySpace (l : List Char) : List Char :=
  (l.reverse.dropWhile isPySpace).reverse

/-- Model of `re.search` with the first PROMPT_PATTERNS regex, which requires
a dollar or hash character followed only by whitespace up to the end of the
line; equivalently, after removing trailing whitespace the line ends in one
of those two characters. -/
def matchesDollarHash (line : String) : Bool :=
  match (dropTrailingPySpace line.toList).getLast? with
  | some c => c == '$' || c == '#'
  | none => false

/-- Model of `re.search` with the second PROMPT_PATTERNS regex, which requires
a closing bracket then a dollar sign followed only by whitespace up to the
end of the line. -/
def matchesBracketDollar (line : String) : Bool :=
  let t := dropTrailingPySpace line.toList
  match t.getLast?, t.dropLast.getLast? with
  | some c2, some c1 => c1 == ']' && c2 == '$'
  | _, _ => false

/-- Model of `re.search` with the third PROMPT_PATTERNS regex, which requires
a greater-than sign followed only by whitespace up to the end of the line. -/
def matchesAngle (line : String) : Bool :=
  match (dropTrailingPySpace line.toList).getLast? with
  | some c => c == '>'
  | none => false

/-- Embeds the `for pattern in self.PROMPT_PATTERNS: if re.search(pattern,
...)` loop of `_wait_for_prompt` (connection_manager.py 336-339): the line
matches some entry of PROMPT_PATTERNS. -/
def promptDetected (line : String) : Bool :=
  matchesDollarHash line || matchesBracketDollar line || matchesAngle line

example : promptDetected "user@host:~$ " = true := rfl
example : promptDetected "[user@host]$ " = true := rfl
example : promptDetected "" = false := rfl
example : promptDetected "log line" = false := rfl

/-- One observable step of the channel during `_wait_for_prompt`: either
`recv_ready()` is true and a chunk is read (taking `dt` tenths of a second of
real time), or no data is ready and the loop sleeps 0.1 s. -/
inductive WaitEv
  | recv (chunk : String) (dt : Nat)
  | idle
deriving DecidableEq

/-- Outcome of the modelled `_wait_for_prompt` loop: the prompt was detected
and the buffer returned, the overall timeout elapsed and a RuntimeError with
message `msg` was raised (the buffer records what had accumulated), or the
event trace ended with the loop still live. -/
inductive WaitResult
  | prompt (buffer : String)
  | timedOut (msg : String) (buffer : String)
  | stillWaiting (buffer : String)
deriving DecidableEq

/-- The message of the RuntimeError raised on prompt timeout
(connection_manager.py line 324); it interpolates only the timeout value.
Time is measured in tenths of a second throughout the model. -/
def timeoutMsg (t : Nat) : String :=
  "Timeout waiting for shell prompt after " ++ toString t ++ "s"

/-- Embeds the loop of `SSHConnectionManager._wait_for_prompt`
(connection_manager.py 301-344).  Time is in tenths of a second; `now` is
the elapsed time since entry (the code's `time.time() - start_time`) and
`lastAct` the time of the last received byte.  Each iteration first checks
`elapsed > timeout`; then, if data is ready, it is appended to the buffer and
`last_activity` updated; otherwise, when more than 1 s (10 ticks) has passed
since the last activity and the last buffered line matches a prompt pattern,
the buffer is returned, else the loop sleeps 0.1 s (1 tick). -/
def waitGo (t : Nat) : List WaitEv → String → Nat → Nat → WaitResult
  | [], buffer, now, _ =>
    if t < now then WaitResult.timedOut (timeoutMsg t) buffer
    else WaitResult.stillWaiting buffer
  | WaitEv.recv chunk dt :: rest, buffer, now, _ =>
    if t < now then WaitResult.timedOut (timeoutMsg t) buffer
    else waitGo t rest (buffer ++ chunk) (now + dt) (now + dt)
  | WaitEv.idle :: rest, buffer, now, lastAct =>
    if t < now then WaitResult.timedOut (timeoutMsg t) buffer
    else if lastAct + 10 < now && promptDetected (lastLine buffer) then
      WaitResult.prompt buffer
    else waitGo t rest buffer (now + 1) lastAct

/-- Entry point of the `_wait_for_prompt` model: empty buffer, clock at 0. -/
def wait_for_prompt (t : Nat) (evs : List WaitEv) : WaitResult :=
  waitGo t evs "" 0 0

/-- True when the wait ended in the timeout branch (RuntimeError raised). -/
def isTimedOut : WaitResult → Bool
  | WaitResult.timedOut _ _ => true
  | _ => false

/-- One observable step of the channel during `execute_streaming_command`:
data is ready and a chunk is read and delivered, nothing is ready and the
loop sleeps 0.1 s, or reading raises an exception (which the code catches
and turns into a break). -/
inductive StreamEv
  | data (chunk : String)
  | quiet
  | fail
deriving DecidableEq

/-- How the modelled streaming loop ended: `stopped` is the cancellation
branch (Ctrl+C sent, remaining output drained and discarded, break),
`failed` is the caught-exception break, `running` means the event trace
ended with the loop still live. -/
inductive StreamExit
  | stopped
  | failed
  | running
deriving DecidableEq

/-- Embeds the `while True` loop of
`SSHConnectionManager.execute_streaming_command` (connection_manager.py
252-281).  `stopAfter` counts the iterations until `stop_check()` first
returns true (the stop flag is monotone: once set it stays set).  Each
iteration first polls `stop_check`; on stop it sends Ctrl+C, drains and
discards any remaining channel output and breaks — delivering nothing more
to `output_callback`.  Otherwise ready data is delivered to the callback and
a read exception breaks the loop.  Returns the chunks delivered to
`output_callback`, in order, and how the loop ended. -/
def streamGo : Nat → List StreamEv → List String × StreamExit
  | 0, _ => ([], StreamExit.stopped)
  | _ + 1, [] => ([], StreamExit.running)
  | n + 1, StreamEv.data c :: rest =>
    let p := streamGo n rest
    (c :: p.1, p.2)
  | n + 1, StreamEv.quiet :: rest => streamGo n rest
  | _ + 1, StreamEv.fail :: _ => ([], StreamExit.failed)

/-- The chunks a trace prefix would deliver, stopping at the first read
failure; used to state that chunks are delivered only from iterations that
precede the stop request. -/
def chunksDelivered : List StreamEv → List String
  | [] => []
  | StreamEv.data c :: rest => c :: chunksDelivered rest
  | StreamEv.quiet :: rest => chunksDelivered rest
  | StreamEv.fail :: _ => []

/-- Embeds `SSHConnectionManager.execute_command` (connection_manager.py
197-220).  The first component lists the commands sent on the channel; the
second is `Except.error` with the source's message when the `not
self.connected` guard raises before anything is sent, and otherwise the
result of the prompt wait. -/
def execute_command (connected : Bool) (cmd : String) (t : Nat) (evs : List WaitEv) :
    List String × Except String WaitResult :=
  if !connected then ([], Except.error "Not connected. Call connect() first.")
  else ([cmd], Except.ok (wait_for_prompt t evs))

/-- Embeds `SSHConnectionManager.execute_streaming_command`
(connection_manager.py 222-281): the `not self.connected` guard raises
before the command is sent; otherwise the command is sent and the streaming
loop runs. -/
def execute_streaming_command (connected : Bool) (cmd : String) (stopAfter : Nat)
    (evs : List StreamEv) : List String × Except String (List String × StreamExit) :=
  if !connected then ([], Except.error "Not connected. Call connect() first.")
  else ([cmd], Except.ok (streamGo stopAfter evs))

/-- State of an `SSHConnectionManager`: the `connected` flag and whether the
shell channel and the paramiko client are still set (connection_manager.py
41-44). -/
structure SSHState where
  connected : Bool
  shellOpen : Bool
  clientOpen : Bool
deriving DecidableEq

/-- Embeds `SSHConnectionManager._cleanup` (connection_manager.py 346-364):
best-effort close of shell and client, exceptions suppressed. -/
def _cleanup (st : SSHState) : SSHState :=
  { st with shellOpen := false, clientOpen := false }

/-- Embeds `SSHConnectionManager.disconnect` (connection_manager.py 183-195):
if not connected, return immediately with no output; otherwise emit the
disconnect messages, clean up and clear the `connected` flag.  The second
component lists the texts sent to the output callback; no path raises. -/
def disconnect (st : SSHState) : SSHState × List String :=
  if !st.connected then (st, [])
  else
    ({ _cleanup st with connected := false },
      ["\n[INFO] Disconnecting...\n", "[OK] Disconnected\n"])

/-- Auxiliary for Python `str.split()`: accumulate the current token. -/
def pySplitWsAux : List Char → List Char → List (List Char)
  | [], acc => if acc.isEmpty then [] else [acc.reverse]
  | c :: rest, acc =>
    if isPySpace c then
      if acc.isEmpty then pySplitWsAux rest []
      else acc.reverse :: pySplitWsAux rest []
    else pySplitWsAux rest (c :: acc)

/-- Model of Python `str.split()` with no argument: split on whitespace runs,
producing no empty tokens. -/
def pySplitWs (l : List Char) : List (List Char) :=
  pySplitWsAux l []

example : pySplitWs "  a  bc ".toList = [['a'], ['b', 'c']] := rfl

/-- Model of Python `str.split('\n')`: split on every newline, keeping empty
pieces, so the piece count is one more than the newline count. -/
def pySplitNl : List Char → List (List Char)
  | [] => [[]]
  | '\n' :: rest => [] :: pySplitNl rest
  | c :: rest =>
    match pySplitNl rest with
    | [] => [[c]]
    | l :: ls => (c :: l) :: ls

example : pySplitNl "a\n\nb".toList = [['a'], [], ['b']] := rfl

/-- Embeds `KubernetesOperations._looks_like_pod_name` (operations.py
475-497): the token is non-empty, contains at least one character accepted
by Python `isalnum`, and does not start with '-', '_' or '.'. -/
def _looks_like_pod_name (name : List Char) : Bool :=
  match name with
  | [] => false
  | c :: cs =>
    if !((c :: cs).any pyIsAlnum) then false
    else if c == '-' || c == '_' || c == '.' then false
    else true

/-- The per-line step of `KubernetesOperations._parse_pod_list`
(operations.py 455-471): strip the line, skip it when blank, when it starts
with "kubectl" or when it ends with '$' or '#'; otherwise take the first
whitespace-separated token and keep it when `_looks_like_pod_name` accepts
it. -/
def podListLine (rawLine : List Char) : Option (List Char) :=
  if pyStripL rawLine = [] then none
  else if "kubectl".toList.isPrefixOf (pyStripL rawLine) ||
      ['$'].isSuffixOf (pyStripL rawLine) || ['#'].isSuffixOf (pyStripL rawLine) then none
  else
    match pySplitWs (pyStripL rawLine) with
    | [] => none
    | t :: _ => if _looks_like_pod_name t then some t else none

/-- Embeds `KubernetesOperations._parse_pod_list` (operations.py 442-473):
strip the output, split it on newlines and collect the accepted first-column
tokens in order. -/
def _parse_pod_list (output : String) : List String :=
  ((pySplitNl (pyStripL output.toList)).filterMap podListLine).map String.mk

/-- The per-line step of `ArgoWorker._parse_pod_names` (argo_worker.py
109-129): strip the line; skip it when blank, when it is the kubectl header
(starts with "NAME" and contains "READY"), when it starts with "kubectl" or
when it ends with '$' or '#'; otherwise take the first whitespace-separated
token and keep it when it is non-empty, does not start with '[' and contains
a '-'. -/
def podNamesLine (rawLine : List Char) : Option (List Char) :=
  if pyStripL rawLine = [] then none
  else if "NAME".toList.isPrefixOf (pyStripL rawLine) &&
      isInfixOfL "READY".toList (pyStripL rawLine) then none
  else if "kubectl".toList.isPrefixOf (pyStripL rawLine) ||
      ['$'].isSuffixOf (pyStripL rawLine) || ['#'].isSuffixOf (pyStripL rawLine) then none
  else
    match pySplitWs (pyStripL rawLine) with
    | [] => none
    | t :: _ =>
      if !t.isEmpty && !("[".toList.isPrefixOf t) && isInfixOfL ['-'] t then some t
      else none

/-- Embeds `ArgoWorker._parse_pod_names` (argo_worker.py 96-131): strip the
kubectl output, split it on newlines and collect the accepted first-column
tokens in order. -/
def _parse_pod_names (output : String) : List String :=
  ((pySplitNl (pyStripL output.toList)).filterMap podNamesLine).map String.mk

/-- Outcome of one `get_pod_metrics` call as seen by the `_handle_metrics`
loop: a successful metrics string, or a raised exception with its message. -/
inductive Fetch
  | success (s : String)
  | failure (msg : String)
deriving DecidableEq

/-- A signal emitted by the metrics worker: `metricsSig` models
`self.metrics.emit(...)` and `errorSig` models `self.error.emit(...)`. -/
inductive Emit
  | metricsSig (s : String)
  | errorSig (s : String)
deriving DecidableEq

/-- The waiting message the loop emits while a too-new pod has no metrics yet
(argo_worker.py line 366). -/
def waitingMsg : String :=
  "⏳ Pod too new, waiting for metrics... (~30s)"

/-- Embeds the hard-error classification of `_handle_metrics`
(argo_worker.py 343-347): substring tests on the exception message. -/
def isHardError (msg : String) : Bool :=
  strContains msg "Metrics server not available" ||
  strContains msg "Metrics API not available" ||
  strContains msg "metrics.k8s.io"

/-- Embeds the pod-too-new classification of `_handle_metrics`
(argo_worker.py 349-355): substring tests, three of them case-insensitive. -/
def isPodTooNew (msg : String) : Bool :=
  strContains msg "Pod too new" ||
  strContains msg.toLower "not ready" ||
  strContains msg.toLower "not yet available" ||
  strContains msg.toLower "metrics collecting"

/-- The retry cap `max_failed_attempts` of `_handle_metrics`
(argo_worker.py line 317). -/
def maxFailedAttempts : Nat := 7

/-- Embeds the polling loop of `ArgoWorker._handle_metrics` (argo_worker.py
314-388) for a run during which the stop flag is never set, as a function of
the successive fetch outcomes.  On success the metrics are emitted and the
failure counter reset; on failure the counter is incremented and then: a
hard error emits one error signal and breaks; a pod-too-new error below the
cap emits the waiting message and retries, and at the cap emits one error
signal and breaks; any other error at the cap emits one error signal and
breaks, and below the cap silently retries after a backoff.  The result is
the ordered list of emitted signals; an exhausted trace means the loop is
still polling. -/
def metricsLoop : List Fetch → Nat → List Emit
  | [], _ => []
  | Fetch.success s :: rest, _ => Emit.metricsSig s :: metricsLoop rest 0
  | Fetch.failure msg :: rest, failedPrev =>
    let failed := failedPrev + 1
    if isHardError msg then [Emit.errorSig "Metrics server not installed in cluster"]
    else if isPodTooNew msg then
      if failed < maxFailedAttempts then Emit.metricsSig waitingMsg :: metricsLoop rest failed
      else [Emit.errorSig "Pod is too new - metrics need ~60s to become available"]
    else if maxFailedAttempts ≤ failed then
      if strContains msg.toLower "timed out" then
        [Emit.errorSig "Metrics unavailable - command timed out after 7 retries"]
      else [Emit.errorSig "Metrics unavailable after 7 attempts"]
    else metricsLoop rest failed

/-!  Helper lemmas about the character-level models. -/

/-- Strings built from character lists expose that list directly. -/
theorem toList_mk (l : List Char) : (String.mk l).toList = l := rfl

/-- A character that does not satisfy the predicate is kept by `dropWhile`. -/
theorem mem_dropWhile_of_not (p : Char → Bool) {a : Char} (h : p a = false) :
    ∀ l : List Char, a ∈ l → a ∈ l.dropWhile p := by
  intro l hm
  induction l with
  | nil => simp at hm
  | cons b t ih =>
    rw [List.dropWhile_cons]
    split
    · rcases List.mem_cons.mp hm with rfl | ht
      · simp_all
      · exact ih ht
    · exact hm

/-- Membership survives `pyStripL` backwards: stripped characters come from
the original list. -/
theorem mem_of_mem_pyStripL {a : Char} {l : List Char} (h : a ∈ pyStripL l) : a ∈ l := by
  unfold pyStripL at h
  rw [List.mem_reverse] at h
  have h2 := (List.dropWhile_sublist _).subset h
  rw [List.mem_reverse] at h2
  exact (List.dropWhile_sublist _).subset h2

/-- A non-whitespace character of the list survives `pyStripL`. -/
theorem mem_pyStripL_of_not_space {a : Char} {l : List Char} (ha : a ∈ l)
    (hs : isPySpace a = false) : a ∈ pyStripL l := by
  unfold pyStripL
  rw [List.mem_reverse]
  apply mem_dropWhile_of_not _ hs
  rw [List.mem_reverse]
  exact mem_dropWhile_of_not _ hs _ ha

/-- ASCII characters are never in the Latin-1 extension of `isalnum`. -/
theorem latin1Alnum_eq_false_of_ascii {c : Char} (h : isAscii c = true) :
    latin1Alnum c = false := by
  have hn : c.toNat < 128 := by simpa [isAscii] using h
  simp only [latin1Alnum, Bool.or_eq_false_iff, Bool.and_eq_false_iff,
    beq_eq_false_iff_ne, ne_eq, Bool.not_eq_eq_eq_not, Bool.not_true,
    decide_eq_false_iff_not, not_le]
  omega

/-- On ASCII characters the code's grep filter agrees with the spec's
[A-Za-z0-9_.-] character set. -/
theorem isGrepAllowed_eq_of_ascii {c : Char} (h : isAscii c = true) :
    isGrepAllowed c = inGrepCharset c := by
  simp [isGrepAllowed, inGrepCharset, pyIsAlnum, latin1Alnum_eq_false_of_ascii h]

/-- On ASCII characters the code's pod filter agrees with the spec's
[A-Za-z0-9.-] character set. -/
theorem isPodAllowed_eq_of_ascii {c : Char} (h : isAscii c = true) :
    isPodAllowed c = inPodCharset c := by
  simp [isPodAllowed, inPodCharset, pyIsAlnum, latin1Alnum_eq_false_of_ascii h]

/-- Spec-charset characters always pass the code's grep filter. -/
theorem isGrepAllowed_of_inGrepCharset {c : Char} (h : inGrepCharset c = true) :
    isGrepAllowed c = true := by
  simp only [inGrepCharset, Bool.or_eq_true] at h
  simp only [isGrepAllowed, pyIsAlnum, Bool.or_eq_true]
  tauto

/-- Spec-charset characters always pass the code's pod filter. -/
theorem isPodAllowed_of_inPodCharset {c : Char} (h : inPodCharset c = true) :
    isPodAllowed c = true := by
  simp only [inPodCharset, Bool.or_eq_true] at h
  simp only [isPodAllowed, pyIsAlnum, Bool.or_eq_true]
  tauto

/-- Python whitespace characters have one of six ASCII code points. -/
theorem toNat_of_isPySpace {c : Char} (h : isPySpace c = true) :
    c.toNat = 32 ∨ c.toNat = 9 ∨ c.toNat = 10 ∨ c.toNat = 13 ∨
      c.toNat = 11 ∨ c.toNat = 12 := by
  simp only [isPySpace, Bool.or_eq_true, beq_iff_eq] at h
  rcases h with ((((rfl | rfl) | rfl) | rfl) | rfl) | rfl <;> simp [Char.toNat]

/-- No spec-charset character is Python whitespace, so sanitizer inputs that
contain one keep it through the strip. -/
theorem inGrepCharset_not_space {c : Char} (h : inGrepCharset c = true) :
    isPySpace c = false := by
  cases hs : isPySpace c
  · rfl
  · exfalso
    have ht := toNat_of_isPySpace hs
    simp only [inGrepCharset, Bool.or_eq_true, beq_iff_eq] at h
    rcases h with ((h | rfl) | rfl) | rfl
    · simp only [asciiAlnum, Bool.or_eq_true, Bool.and_eq_true, decide_eq_true_eq] at h
      rcases ht with ht | ht | ht | ht | ht | ht <;>
        rcases h with (h | h) | h <;> omega
    · exact absurd ht (by decide)
    · exact absurd ht (by decide)
    · exact absurd ht (by decide)

/-- ASCII characters accepted by the Python `isalnum` model are ASCII
alphanumerics. -/
theorem asciiAlnum_of_pyIsAlnum {c : Char} (ha : isAscii c = true)
    (h : pyIsAlnum c = true) : asciiAlnum c = true := by
  simp only [pyIsAlnum, Bool.or_eq_true] at h
  rcases h with h | h
  · exact h
  · rw [latin1Alnum_eq_false_of_ascii ha] at h
    exact absurd h (by simp)

/-- C1 counterexample: the claim says `_sanitize_grep_pattern` always returns
a string containing only [A-Za-z0-9_.-], but Python's `str.isalnum` is
Unicode-aware, so the non-ASCII letter 'é' (U+00E9, for which Python's
isalnum returns True) passes the filter unchanged and the returned string
contains a character outside that set. -/
theorem sanitize_grep_cex :
    _sanitize_grep_pattern "é" = Except.ok "é" ∧ 'é' ∈ "é".toList ∧
      inGrepCharset 'é' = false :=
  ⟨rfl, by decide, by decide⟩

/-- C1 (amended): for every ASCII string s, `_sanitize_grep_pattern` returns
only strings that are non-empty, contain only characters from
[A-Za-z0-9_.-], and never start with '-'; it returns successfully whenever s
contains at least one character of that set; and it raises ValueError
whenever the filtered result is empty.  (The restriction to ASCII input is
forced by the counterexample: the code's filter accepts all Unicode
alphanumerics.) -/
theorem sanitize_grep_spec :
    ∀ s : String, (∀ c ∈ s.toList, isAscii c = true) →
      (∀ r, _sanitize_grep_pattern s = Except.ok r →
        r.toList ≠ [] ∧ (∀ c ∈ r.toList, inGrepCharset c = true) ∧
          r.toList.head? ≠ some '-') ∧
      ((∃ c ∈ s.toList, inGrepCharset c = true) →
        ∃ r, _sanitize_grep_pattern s = Except.ok r) ∧
      ((pyStripL s.toList).filter isGrepAllowed = [] →
        ∃ e, _sanitize_grep_pattern s = Except.error e) := by
  intro s hascii
  refine ⟨?_, ?_, ?_⟩
  · intro r hr
    unfold _sanitize_grep_pattern at hr
    by_cases hp : pyStripL s.toList = []
    · rw [if_pos hp] at hr
      exact Except.noConfusion hr
    · rw [if_neg hp] at hr
      split at hr
      · exact Except.noConfusion hr
      · rename_i c cs hf
        have hmemall : ∀ x ∈ c :: cs, inGrepCharset x = true := by
          intro x hx
          rw [← hf] at hx
          have h1 : isGrepAllowed x = true := List.of_mem_filter hx
          have h2 : x ∈ s.toList := mem_of_mem_pyStripL (List.mem_of_mem_filter hx)
          rw [← isGrepAllowed_eq_of_ascii (hascii x h2)]
          exact h1
        by_cases hc : c == '-'
        · rw [if_pos hc] at hr
          cases hr
          refine ⟨by simp [toList_mk], ?_, ?_⟩
          · intro x hx
            rw [toList_mk] at hx
            rcases List.mem_cons.mp hx with rfl | hx2
            · decide
            · exact hmemall x hx2
          · rw [toList_mk]
            simp
        · rw [if_neg hc] at hr
          cases hr
          refine ⟨by simp [toList_mk], ?_, ?_⟩
          · intro x hx
            rw [toList_mk] at hx
            exact hmemall x hx
          · rw [toList_mk]
            simp only [List.head?_cons, ne_eq, Option.some.injEq]
            intro hcc
            exact hc (by simp [hcc])
  · rintro ⟨c, hc, hcg⟩
    have hns : isPySpace c = false := inGrepCharset_not_space hcg
    have hmem : c ∈ pyStripL s.toList := mem_pyStripL_of_not_space hc hns
    have hne : pyStripL s.toList ≠ [] := by
      intro h
      rw [h] at hmem
      exact absurd hmem (List.not_mem_nil c)
    have hfmem : c ∈ (pyStripL s.toList).filter isGrepAllowed :=
      List.mem_filter.mpr ⟨hmem, isGrepAllowed_of_inGrepCharset hcg⟩
    unfold _sanitize_grep_pattern
    rw [if_neg hne]
    split
    · rename_i hfnil
      rw [hfnil] at hfmem
      exact absurd hfmem (List.not_mem_nil c)
    · rename_i a as hf
      by_cases ha : a == '-'
      · rw [if_pos ha]
        exact ⟨_, rfl⟩
      · rw [if_neg ha]
        exact ⟨_, rfl⟩
  · intro hf
    unfold _sanitize_grep_pattern
    by_cases hp : pyStripL s.toList = []
    · rw [if_pos hp]
      exact ⟨_, rfl⟩
    · rw [if_neg hp, hf]
      exact ⟨_, rfl⟩

/-- Witness for C1: the amended theorem applied to the concrete ASCII input
"my-app.1", which sanitizes to itself. -/
theorem sanitize_grep_spec_witness :
    "my-app.1".toList ≠ [] ∧ (∀ c ∈ "my-app.1".toList, inGrepCharset c = true) ∧
      "my-app.1".toList.head? ≠ some '-' :=
  (sanitize_grep_spec "my-app.1" (by decide)).1 "my-app.1" rfl

/-- C2 counterexample: the claim says `_sanitize_pod_name` filters its input
to [A-Za-z0-9.-], but Python's Unicode-aware `str.isalnum` accepts the micro
sign 'µ' (U+00B5), so the sanitizer returns "µ" — whose only character is
outside that set — instead of rejecting or stripping it. -/
theorem sanitize_pod_cex :
    _sanitize_pod_name "µ" = Except.ok "µ" ∧ 'µ' ∈ "µ".toList ∧
      inPodCharset 'µ' = false :=
  ⟨rfl, by decide, by decide⟩

/-- C2 (amended): for every ASCII string s, `_sanitize_pod_name` returns only
strings whose characters are all in [A-Za-z0-9.-], whose first and last
characters are ASCII alphanumerics, and whose length is at most 253;
"-bad-" is rejected because its filtered form starts with '-'; and strings
with no characters allowed by the respective filter make both sanitizers
raise ValueError.  (The restriction to ASCII input is forced by the
counterexample: the code's filter accepts all Unicode alphanumerics.) -/
theorem sanitize_pod_spec :
    ∀ s : String, (∀ c ∈ s.toList, isAscii c = true) →
      (∀ r, _sanitize_pod_name s = Except.ok r →
        (∀ c ∈ r.toList, inPodCharset c = true) ∧
        (∀ c, r.toList.head? = some c → asciiAlnum c = true) ∧
        (∀ c, r.toList.getLast? = some c → asciiAlnum c = true) ∧
        r.toList.length ≤ 253) ∧
      (_sanitize_pod_name "-bad-" =
        Except.error "Invalid pod name - must start with alphanumeric character") ∧
      ((∀ c ∈ s.toList, isPodAllowed c = false) →
        isError (_sanitize_pod_name s) = true) ∧
      (∀ t : String, (∀ c ∈ t.toList, isGrepAllowed c = false) →
        isError (_sanitize_grep_pattern t) = true) := by
  intro s hascii
  refine ⟨?_, rfl, ?_, ?_⟩
  · intro r hr
    unfold _sanitize_pod_name at hr
    by_cases hp : pyStripL s.toList = []
    · rw [if_pos hp] at hr
      exact Except.noConfusion hr
    · rw [if_neg hp] at hr
      split at hr
      · exact Except.noConfusion hr
      · rename_i c cs hf
        have hmemS : ∀ x ∈ c :: cs, x ∈ s.toList := by
          intro x hx
          rw [← hf] at hx
          exact mem_of_mem_pyStripL (List.mem_of_mem_filter hx)
        have hmemall : ∀ x ∈ c :: cs, inPodCharset x = true := by
          intro x hx
          rw [← hf] at hx
          have hx1 : isPodAllowed x = true := List.of_mem_filter hx
          have hx2 : x ∈ s.toList := mem_of_mem_pyStripL (List.mem_of_mem_filter hx)
          rw [← isPodAllowed_eq_of_ascii (hascii x hx2)]
          exact hx1
        by_cases h1 : !pyIsAlnum c
        · rw [if_pos h1] at hr
          exact Except.noConfusion hr
        · rw [if_neg h1] at hr
          by_cases h2 : !pyIsAlnum ((c :: cs).getLast (List.cons_ne_nil c cs))
          · rw [if_pos h2] at hr
            exact Except.noConfusion hr
          · rw [if_neg h2] at hr
            by_cases h3 : 253 < (c :: cs).length
            · rw [if_pos h3] at hr
              exact Except.noConfusion hr
            · rw [if_neg h3] at hr
              cases hr
              have hcAl : pyIsAlnum c = true := by
                simpa using h1
              have hlastAl : pyIsAlnum ((c :: cs).getLast (List.cons_ne_nil c cs)) = true := by
                simpa using h2
              refine ⟨?_, ?_, ?_, ?_⟩
              · intro x hx
                rw [toList_mk] at hx
                exact hmemall x hx
              · intro x hx
                rw [toList_mk] at hx
                simp only [List.head?_cons, Option.some.injEq] at hx
                subst hx
                exact asciiAlnum_of_pyIsAlnum
                  (hascii _ (hmemS _ (List.mem_cons_self c cs))) hcAl
              · intro x hx
                rw [toList_mk] at hx
                rw [List.getLast?_eq_getLast _ (List.cons_ne_nil c cs)] at hx
                simp only [Option.some.injEq] at hx
                subst hx
                exact asciiAlnum_of_pyIsAlnum
                  (hascii _ (hmemS _ (List.getLast_mem (List.cons_ne_nil c cs)))) hlastAl
              · rw [toList_mk]
                exact Nat.not_lt.mp h3
  · intro h
    unfold _sanitize_pod_name
    by_cases hp : pyStripL s.toList = []
    · rw [if_pos hp]
      rfl
    · have hfe : (pyStripL s.toList).filter isPodAllowed = [] := by
        apply List.filter_eq_nil_iff.mpr
        intro a ha
        simp [h a (mem_of_mem_pyStripL ha)]
      rw [if_neg hp, hfe]
      rfl
  · intro t h
    unfold _sanitize_grep_pattern
    by_cases hp : pyStripL t.toList = []
    · rw [if_pos hp]
      rfl
    · have hfe : (pyStripL t.toList).filter isGrepAllowed = [] := by
        apply List.filter_eq_nil_iff.mpr
        intro a ha
        simp [h a (mem_of_mem_pyStripL ha)]
      rw [if_neg hp, hfe]
      rfl

/-- Witness for C2: the amended theorem applied to the concrete ASCII inputs
"web-0", which sanitizes to itself, and "!!!", which has no allowed
characters. -/
theorem sanitize_pod_spec_witness :
    (∀ c ∈ "web-0".toList, inPodCharset c = true) ∧
      isError (_sanitize_grep_pattern "!!!") = true := by
  have h := sanitize_pod_spec "web-0" (by decide)
  exact ⟨fun c hc => (h.1 "web-0" rfl).1 c hc, h.2.2.2 "!!!" (by decide)⟩

/-- Modelled from the spec words "the last non-empty buffered line": the
final line of the buffer after discarding empty lines.  Stated only to
contrast the specification with the code's `lastLine`, which takes the final
`splitlines` entry whether or not it is empty. -/
def lastNonEmptyLineSpec (buffer : String) : String :=
  match ((pySplitlines buffer.toList).filter (fun l => !l.isEmpty)).getLast? with
  | some l => String.mk l
  | none => ""

/-- Trace in which the prompt "user@host:~$ " arrives at once and the channel
then stays idle past the 1 s threshold. -/
def promptTrace : List WaitEv :=
  WaitEv.recv "user@host:~$ " 0 :: List.replicate 12 WaitEv.idle

/-- Trace in which non-matching data keeps arriving every 0.1 s. -/
def noisyTrace : List WaitEv :=
  List.replicate 30 (WaitEv.recv "log line\n" 1)

/-- Trace in which the prompt arrives followed by a blank line, and the
channel then stays idle well past both the 1 s threshold and the timeout. -/
def blankTailTrace : List WaitEv :=
  WaitEv.recv "user@host:~$ \n\n" 0 :: List.replicate 40 WaitEv.idle

/-- C3 counterexample: the claim says the wait returns exactly when >1 s has
passed idle and the last NON-EMPTY buffered line matches a prompt pattern.
In this run the buffer is "user@host:~$ \n\n": its last non-empty line
"user@host:~$ " matches, the channel is idle for far longer than 1 s, yet
the code — which inspects only `splitlines()[-1]`, here the empty string —
never returns the buffer and instead raises the timeout. -/
theorem wait_for_prompt_cex :
    lastNonEmptyLineSpec "user@host:~$ \n\n" = "user@host:~$ " ∧
    promptDetected "user@host:~$ " = true ∧
    promptDetected (lastLine "user@host:~$ \n\n") = false ∧
    isTimedOut (wait_for_prompt 20 blankTailTrace) = true :=
  ⟨rfl, rfl, rfl, rfl⟩

/-- Helper for C3: whenever the modelled wait loop returns a buffer, the
final `splitlines` entry of that buffer matches a PROMPT_PATTERNS entry
(the prompt branch is the only one producing `WaitResult.prompt`, and it is
guarded by the >1 s idle check conjoined with the pattern match). -/
theorem waitGo_prompt_sound (t : Nat) :
    ∀ (evs : List WaitEv) (buffer : String) (now lastAct : Nat) (b : String),
      waitGo t evs buffer now lastAct = WaitResult.prompt b →
      promptDetected (lastLine b) = true := by
  intro evs
  induction evs with
  | nil =>
    intro buffer now lastAct b h
    unfold waitGo at h
    split at h
    · exact WaitResult.noConfusion h
    · exact WaitResult.noConfusion h
  | cons e rest ih =>
    intro buffer now lastAct b h
    cases e with
    | recv chunk dt =>
      unfold waitGo at h
      split at h
      · exact WaitResult.noConfusion h
      · exact ih _ _ _ _ h
    | idle =>
      unfold waitGo at h
      split at h
      · exact WaitResult.noConfusion h
      · split at h
        · rename_i hcond
          cases h
          simp only [Bool.and_eq_true] at hcond
          exact hcond.2
        · exact ih _ _ _ _ h

/-- C3 (amended): the prompt wait returns the buffer only on the idle branch,
when more than ~1 s has passed without data and the LAST buffered line — the
final `splitlines` entry, which is empty when the buffer ends in a blank
line — matches one of the PROMPT_PATTERNS; a buffer ending in
"user@host:~$ " after >1 s idle is returned, and continuously arriving
non-matching data runs into the overall timeout and raises
PromptTimeoutError. -/
theorem wait_for_prompt_spec :
    (∀ (t : Nat) (evs : List WaitEv) (buffer : String) (now lastAct : Nat) (b : String),
      waitGo t evs buffer now lastAct = WaitResult.prompt b →
        promptDetected (lastLine b) = true) ∧
    wait_for_prompt 1000 promptTrace = WaitResult.prompt "user@host:~$ " ∧
    isTimedOut (wait_for_prompt 20 noisyTrace) = true :=
  ⟨waitGo_prompt_sound, rfl, rfl⟩

/-- Witness for C3: the soundness component applied to the concrete run in
which the prompt is detected. -/
theorem wait_for_prompt_spec_witness :
    promptDetected (lastLine "user@host:~$ ") = true :=
  wait_for_prompt_spec.1 1000 promptTrace "" 0 0 "user@host:~$ " rfl

/-- C7 counterexample: the claim says the PromptTimeoutError message includes
the tail of the buffered output.  In this run the buffer is "LOGDATAx" when
the timeout fires, but the raised message is the fixed text, which contains
neither the buffer nor its tail (the tail only goes to the debug log). -/
theorem timeout_message_cex :
    wait_for_prompt 5 [WaitEv.recv "LOGDATA" 0, WaitEv.recv "x" 6] =
      WaitResult.timedOut (timeoutMsg 5) "LOGDATAx" ∧
    strContains (timeoutMsg 5) "LOGDATAx" = false ∧
    strContains (timeoutMsg 5) "LOGDATA" = false :=
  ⟨rfl, rfl, rfl⟩

/-- C7 (amended): whenever the prompt wait fails with the timeout, the raised
message is exactly the fixed text interpolating only the timeout value; the
buffered tail is written to the debug log, not into the message. -/
theorem timeout_message_spec :
    ∀ (t : Nat) (evs : List WaitEv) (buffer : String) (now lastAct : Nat) (m b : String),
      waitGo t evs buffer now lastAct = WaitResult.timedOut m b → m = timeoutMsg t := by
  intro t evs
  induction evs with
  | nil =>
    intro buffer now lastAct m b h
    unfold waitGo at h
    split at h
    · cases h
      rfl
    · exact WaitResult.noConfusion h
  | cons e rest ih =>
    intro buffer now lastAct m b h
    cases e with
    | recv chunk dt =>
      unfold waitGo at h
      split at h
      · cases h
        rfl
      · exact ih _ _ _ _ _ h
    | idle =>
      unfold waitGo at h
      split at h
      · cases h
        rfl
      · split at h
        · exact WaitResult.noConfusion h
        · exact ih _ _ _ _ _ h

/-- Witness for C7: the amended theorem applied to the concrete timed-out
run with buffer "LOGDATAx". -/
theorem timeout_message_spec_witness :
    "Timeout waiting for shell prompt after 5s" = timeoutMsg 5 :=
  timeout_message_spec 5 [WaitEv.recv "LOGDATA" 0, WaitEv.recv "x" 6] "" 0 0
    "Timeout waiting for shell prompt after 5s" "LOGDATAx" rfl

/-- Helper for C4: the chunks delivered to the callback are exactly the data
chunks of the iterations that precede the stop request (truncated at a read
failure) — nothing is delivered at or after the stop iteration. -/
theorem streamGo_take (n : Nat) :
    ∀ evs : List StreamEv, (streamGo n evs).1 = chunksDelivered (evs.take n) := by
  induction n with
  | zero =>
    intro evs
    rfl
  | succ k ih =>
    intro evs
    cases evs with
    | nil => rfl
    | cons e rest =>
      cases e with
      | data c =>
        rw [List.take_succ_cons]
        show c :: (streamGo k rest).1 = c :: chunksDelivered (rest.take k)
        rw [ih rest]
      | quiet =>
        rw [List.take_succ_cons]
        show (streamGo k rest).1 = chunksDelivered (rest.take k)
        exact ih rest
      | fail => rfl

/-- Helper for C4: when the stop flag is raised while the loop is still
running (the trace covers the stop iteration) and no read failure precedes
it, the loop ends through the interrupt-and-drain branch. -/
theorem streamGo_stopped (n : Nat) :
    ∀ evs : List StreamEv, n ≤ evs.length → StreamEv.fail ∉ evs.take n →
      (streamGo n evs).2 = StreamExit.stopped := by
  induction n with
  | zero =>
    intro evs _ _
    rfl
  | succ k ih =>
    intro evs hlen hfail
    cases evs with
    | nil => simp at hlen
    | cons e rest =>
      cases e with
      | data c =>
        show (streamGo k rest).2 = StreamExit.stopped
        apply ih rest (by simpa using hlen)
        intro hmem
        exact hfail (by simp [List.take_succ_cons, hmem])
      | quiet =>
        show (streamGo k rest).2 = StreamExit.stopped
        apply ih rest (by simpa using hlen)
        intro hmem
        exact hfail (by simp [List.take_succ_cons, hmem])
      | fail =>
        exact absurd (by simp [List.take_succ_cons]) hfail

/-- C4: in every modelled run of `execute_streaming_command` on a connected
session, the chunks delivered to `output_callback` come only from iterations
before `should_stop` becomes true; when the stop flag is raised during the
run and no read error precedes it, the loop ends through the
interrupt-and-drain branch (`StreamExit.stopped`), which returns normally —
cancellation is never surfaced as an error, and the call result is
`Except.ok`, never `Except.error`. -/
theorem streaming_cancellation_spec :
    ∀ (cmd : String) (n : Nat) (evs : List StreamEv),
      (streamGo n evs).1 = chunksDelivered (evs.take n) ∧
      (n ≤ evs.length → StreamEv.fail ∉ evs.take n →
        (streamGo n evs).2 = StreamExit.stopped) ∧
      execute_streaming_command true cmd n evs = ([cmd], Except.ok (streamGo n evs)) :=
  fun _ n evs => ⟨streamGo_take n evs, streamGo_stopped n evs, rfl⟩

/-- Witness for C4: stop after two iterations of a three-chunk trace — only
the first two chunks are delivered and the exit is the cancellation branch. -/
theorem streaming_cancellation_spec_witness :
    (streamGo 2 [StreamEv.data "a", StreamEv.data "b", StreamEv.data "c"]).2 =
      StreamExit.stopped :=
  (streaming_cancellation_spec "kubectl logs argo-pod -n argo -f" 2
    [StreamEv.data "a", StreamEv.data "b", StreamEv.data "c"]).2.1
    (by decide) (by decide)

/-- C5: in the metrics polling loop, six pod-too-new failures followed by a
success emit exactly six waiting signals and one successful metrics signal
and no error; pod-too-new failures persisting to the cap of 7 emit six
waiting signals and exactly one pod-too-new error, consuming no further
fetches; and a hard metrics-backend failure stops the loop at once with
exactly one error report. -/
theorem metrics_retry_spec :
    ∀ (msg good : String) (rest : List Fetch),
      (isHardError msg = false → isPodTooNew msg = true →
        metricsLoop (List.replicate 6 (Fetch.failure msg) ++ [Fetch.success good]) 0 =
          List.replicate 6 (Emit.metricsSig waitingMsg) ++ [Emit.metricsSig good]) ∧
      (isHardError msg = false → isPodTooNew msg = true →
        metricsLoop (List.replicate 8 (Fetch.failure msg)) 0 =
          List.replicate 6 (Emit.metricsSig waitingMsg) ++
            [Emit.errorSig "Pod is too new - metrics need ~60s to become available"]) ∧
      (isHardError msg = true →
        metricsLoop (Fetch.failure msg :: rest) 0 =
          [Emit.errorSig "Metrics server not installed in cluster"]) := by
  intro msg good rest
  refine ⟨?_, ?_, ?_⟩
  · intro hh hp
    simp [List.replicate_succ, metricsLoop, hh, hp, maxFailedAttempts]
  · intro hh hp
    simp [List.replicate_succ, metricsLoop, hh, hp, maxFailedAttempts]
  · intro hh
    simp [metricsLoop, hh]

/-- Witness for C5: the retry scenarios at the concrete messages the code
produces — `get_pod_metrics` raises "Pod too new - metrics not ready (wait
15-60s)" for a too-new pod and "Metrics server not available" for a missing
metrics backend. -/
theorem metrics_retry_spec_witness :
    metricsLoop (List.replicate 6
        (Fetch.failure "Pod too new - metrics not ready (wait 15-60s)") ++
        [Fetch.success "argo-pod-1   5m   20Mi"]) 0 =
      List.replicate 6 (Emit.metricsSig waitingMsg) ++
        [Emit.metricsSig "argo-pod-1   5m   20Mi"] ∧
    metricsLoop [Fetch.failure "Metrics server not available"] 0 =
      [Emit.errorSig "Metrics server not installed in cluster"] :=
  ⟨(metrics_retry_spec "Pod too new - metrics not ready (wait 15-60s)"
      "argo-pod-1   5m   20Mi" []).1 (by decide) (by decide),
   (metrics_retry_spec "Metrics server not available" "x" []).2.2 (by decide)⟩

/-- C8: on a session whose `connected` flag is false (any session not in the
Ready state), both `execute_command` and `execute_streaming_command` raise
the NotConnectedError message before sending anything on the channel — the
sent-command list of the result is empty, so no command ever executes on a
session that is not Ready. -/
theorem not_connected_spec :
    ∀ (cmd : String) (t : Nat) (evs : List WaitEv) (n : Nat) (sevs : List StreamEv),
      execute_command false cmd t evs =
        ([], Except.error "Not connected. Call connect() first.") ∧
      execute_streaming_command false cmd n sevs =
        ([], Except.error "Not connected. Call connect() first.") :=
  fun _ _ _ _ _ => ⟨rfl, rfl⟩

/-- C9: `disconnect` always leaves the session with `connected = false`, and
a second call on the result is a no-op that emits nothing and raises
nothing — disconnect is idempotent. -/
theorem disconnect_idempotent_spec :
    ∀ st : SSHState,
      (disconnect st).1.connected = false ∧
      disconnect ((disconnect st).1) = ((disconnect st).1, []) := by
  intro st
  unfold disconnect _cleanup
  by_cases h : st.connected <;> simp [h]

/-- A kubectl listing consisting of the header line, two valid pod lines and
one command-echo line. -/
def headerEchoOutput : String :=
  "NAME                READY   STATUS    RESTARTS   AGE\npod-a-1             1/1     Running   0          5m\npod-b-2             1/1     Running   0          3m\nkubectl get pods -n argo --no-headers | grep pod"

/-- The same listing without the header line. -/
def twoPodsEchoOutput : String :=
  "pod-a-1             1/1     Running   0          5m\npod-b-2             1/1     Running   0          3m\nkubectl get pods -n argo --no-headers | grep pod"

/-- C6 counterexample: the claim says a header line + 2 valid pod lines + 1
command-echo line parses to exactly the two pod names.  `_parse_pod_list`
has no header filter (unlike the dispatcher's `_parse_pod_names`), so the
header's first token "NAME" — which contains alphanumerics and starts with a
letter — is accepted as a third entry. -/
theorem parse_pod_list_cex :
    _parse_pod_list headerEchoOutput = ["NAME", "pod-a-1", "pod-b-2"] ∧
    _parse_pod_list headerEchoOutput ≠ ["pod-a-1", "pod-b-2"] :=
  ⟨rfl, by decide⟩

/-- Helper for C6: every token `_parse_pod_list` keeps was accepted by
`_looks_like_pod_name`. -/
theorem podListLine_some {l t : List Char} (h : podListLine l = some t) :
    _looks_like_pod_name t = true := by
  unfold podListLine at h
  split at h
  · exact Option.noConfusion h
  · split at h
    · exact Option.noConfusion h
    · split at h
      · exact Option.noConfusion h
      · split at h
        · rename_i hlook
          cases h
          exact hlook
        · exact Option.noConfusion h

/-- C6 (amended): on two valid pod lines plus a command-echo line the parser
returns exactly the two pod names in order, excluding the echo; with a
header line present the header token "NAME" is also returned, since the
parser skips only blanks and echo/prompt lines and accepts any first token
that contains an alphanumeric and does not start with '-', '_' or '.' (the
kubectl command itself passes --no-headers, so headers do not occur in the
parser's real input). -/
theorem parse_pod_list_spec :
    _parse_pod_list twoPodsEchoOutput = ["pod-a-1", "pod-b-2"] ∧
    _parse_pod_list headerEchoOutput = ["NAME", "pod-a-1", "pod-b-2"] ∧
    (∀ (out p : String), p ∈ _parse_pod_list out →
      _looks_like_pod_name p.toList = true) := by
  refine ⟨rfl, rfl, ?_⟩
  intro out p hp
  unfold _parse_pod_list at hp
  rw [List.mem_map] at hp
  obtain ⟨t, ht, rfl⟩ := hp
  rw [List.mem_filterMap] at ht
  obtain ⟨line, _, hline⟩ := ht
  have hl := podListLine_some hline
  rwa [toList_mk]

/-- Witness for C6: the acceptance component applied to the pod name
"pod-a-1" from the concrete listing. -/
theorem parse_pod_list_spec_witness :
    _looks_like_pod_name "pod-a-1".toList = true :=
  parse_pod_list_spec.2.2 headerEchoOutput "pod-a-1" (by decide)

/-- A running-pods listing containing a hyphen-less pod name alongside a
normal hyphenated one. -/
def mixedPodsOutput : String :=
  "NAME                READY   STATUS    RESTARTS   AGE\nsinglepod           1/1     Running   0          2m\nweb-server-abc      1/1     Running   0          2m"

/-- Helper for C10: every token `_parse_pod_names` keeps contains a '-' and
does not start with '['. -/
theorem podNamesLine_some {l t : List Char} (h : podNamesLine l = some t) :
    isInfixOfL ['-'] t = true ∧ "[".toList.isPrefixOf t = false := by
  unfold podNamesLine at h
  split at h
  · exact Option.noConfusion h
  · split at h
    · exact Option.noConfusion h
    · split at h
      · exact Option.noConfusion h
      · split at h
        · exact Option.noConfusion h
        · split at h
          · rename_i hcond
            cases h
            simp only [Bool.and_eq_true, Bool.not_eq_true'] at hcond
            exact ⟨hcond.2, hcond.1.2⟩
          · exact Option.noConfusion h

/-- C10: every pod name the dispatcher's `_parse_pod_names` emits contains at
least one '-' and does not start with '['; consequently the running pod
"singlepod", though present in the raw listing, is silently omitted from the
emitted pod list. -/
theorem parse_pod_names_spec :
    (∀ (out p : String), p ∈ _parse_pod_names out →
      strContains p "-" = true ∧ pyStartsWith p "[" = false) ∧
    _parse_pod_names mixedPodsOutput = ["web-server-abc"] ∧
    strContains mixedPodsOutput "singlepod" = true := by
  refine ⟨?_, rfl, by decide⟩
  intro out p hp
  unfold _parse_pod_names at hp
  rw [List.mem_map] at hp
  obtain ⟨t, ht, rfl⟩ := hp
  rw [List.mem_filterMap] at ht
  obtain ⟨line, _, hline⟩ := ht
  have h2 := podNamesLine_some hline
  exact ⟨h2.1, h2.2⟩

/-- Witness for C10: the soundness component applied to the emitted pod name
"web-server-abc". -/
theorem parse_pod_names_spec_witness :
    strContains "web-server-abc" "-" = true ∧
      pyStartsWith "web-server-abc" "[" = false :=
  parse_pod_names_spec.1 mixedPodsOutput "web-server-abc" (by decide)

end ArgoLog
